import Mathlib

/-!
Verification of the Orkesta service-management core against its specification.

The development shallowly embeds the Python sources:
  * `services/base_service.py`  — status derivation and the script runner
  * `services/apache.py`, `services/mysql.py` — concrete service verbs
  * `src/platform_manager.py`   — OS detection and command construction
  * `src/service_loader.py`     — plugin discovery and the registry

External effects (subprocess results, file existence, generated passwords)
are passed in explicitly as oracle values, and Python exceptions are made
explicit with `Except`, so that the catch structure of each method is
visible in its definition.
-/

/-! ## Definitions

### String machinery mirroring Python primitives

Python `pat in s` is contiguous-substring containment, `s.lower()` maps
`str.lower` over the characters (ASCII in all strings this code sniffs),
`s.strip()` removes leading and trailing whitespace and `s[:200]` truncates.
-/

/-- Python's substring test, by recursion on the haystack. -/
def containsSub : List Char → List Char → Bool
  | [], pat => pat.isEmpty
  | s@(_ :: t), pat => pat.isPrefixOf s || containsSub t pat

/-- Python `s.lower()` (ASCII). -/
def pyLower (s : String) : String := String.mk (s.data.map Char.toLower)

/-- List-level Python `strip`: drop whitespace from both ends. -/
def stripL (l : List Char) : List Char :=
  ((l.dropWhile Char.isWhitespace).reverse.dropWhile Char.isWhitespace).reverse

/-- Python `s.strip()`. -/
def pyStrip (s : String) : String := String.mk (stripL s.data)

/-- Python `pat in s`. -/
def pyIn (pat s : String) : Bool := containsSub s.data pat.data

/-- Python `s[:200]`, the defensive truncation used in error messages. -/
def truncate200 (s : String) : String := String.mk (s.data.take 200)

/-! ### The status state machine (`BaseService.get_status`, base_service.py 85-91) -/

/-- The status enumeration of `base_service.py`. -/
inductive ServiceStatus where
  | running
  | stopped
  | unknown
  | not_installed
deriving DecidableEq, Repr

/-- `BaseService.get_status`, a pure function of the two probe results
`is_installed()` and `is_running()`. -/
def get_status (is_installed is_running : Bool) : ServiceStatus :=
  if !is_installed then .not_installed
  else if is_running then .running
  else .stopped

/-! ### Platform manager (`src/platform_manager.py`) -/

/-- `OSType` of platform_manager.py. -/
inductive OSType where
  | fedora
  | debian
  | ubuntu
  | arch
  | unknown
deriving DecidableEq, Repr

/-- `PackageManager` of platform_manager.py. -/
inductive PackageManager where
  | dnf
  | yum
  | apt
  | pacman
  | unknown
deriving DecidableEq, Repr

/-- The immutable facts of a `PlatformManager` instance that the service layer
consumes (detection runs once in `__init__`). -/
structure Platform where
  os_type : OSType
  package_manager : PackageManager
deriving DecidableEq, Repr

/-- What reading `/etc/os-release` produced: the file may be absent, the read
may raise, or the parsed `ID`/`ID_LIKE` fields are available (each defaulting
to the empty string when the key is missing). The line-by-line `key=value`
parsing of `_detect_os` is elided; classification only consumes these two
fields. -/
inductive OsReleaseRead where
  | missing
  | readFailure
  | content (idField idLike : String)
deriving DecidableEq, Repr

/-- `PlatformManager._detect_os` (platform_manager.py 51-86): `self.os_type`
starts as `UNKNOWN`, stays `UNKNOWN` when the file is missing or the read
raises (the exception is caught), and otherwise is classified from the
lowercased `ID`/`ID_LIKE` fields, in source order: `fedora` and `ubuntu` are
substring-matched against `ID` only, `debian` and `arch` against `ID` or
`ID_LIKE`. -/
def detect_os : OsReleaseRead → OSType
  | .missing => .unknown
  | .readFailure => .unknown
  | .content idField idLike =>
    let os_id := pyLower idField
    let id_like := pyLower idLike
    if pyIn "fedora" os_id then .fedora
    else if pyIn "ubuntu" os_id then .ubuntu
    else if pyIn "debian" os_id || pyIn "debian" id_like then .debian
    else if pyIn "arch" os_id || pyIn "arch" id_like then .arch
    else .unknown

/-- The claim's version of the classification, for comparison with
`detect_os`: a case-insensitive substring match of the `ID` and `ID_LIKE`
fields against each of {fedora, ubuntu, debian, arch}. -/
def detect_os_claimed : OsReleaseRead → OSType
  | .missing => .unknown
  | .readFailure => .unknown
  | .content idField idLike =>
    let os_id := pyLower idField
    let id_like := pyLower idLike
    if pyIn "fedora" os_id || pyIn "fedora" id_like then .fedora
    else if pyIn "ubuntu" os_id || pyIn "ubuntu" id_like then .ubuntu
    else if pyIn "debian" os_id || pyIn "debian" id_like then .debian
    else if pyIn "arch" os_id || pyIn "arch" id_like then .arch
    else .unknown

/-- `PlatformManager.get_install_command` (137-153): elevation wrapper plus
the manager-specific install command; the dict lookup defaults to `[]` for
`UNKNOWN`. -/
def get_install_command (pm : Platform) (package_name : String)
    (use_pkexec : Bool) : List String :=
  let sudo_cmd := if use_pkexec then ["pkexec"] else ["sudo"]
  match pm.package_manager with
  | .dnf => sudo_cmd ++ ["dnf", "install", "-y", package_name]
  | .yum => sudo_cmd ++ ["yum", "install", "-y", package_name]
  | .apt => sudo_cmd ++ ["apt", "install", "-y", package_name]
  | .pacman => sudo_cmd ++ ["pacman", "-S", "--noconfirm", package_name]
  | .unknown => []

/-- `PlatformManager.get_remove_command` (155-171). -/
def get_remove_command (pm : Platform) (package_name : String)
    (use_pkexec : Bool) : List String :=
  let sudo_cmd := if use_pkexec then ["pkexec"] else ["sudo"]
  match pm.package_manager with
  | .dnf => sudo_cmd ++ ["dnf", "remove", "-y", package_name]
  | .yum => sudo_cmd ++ ["yum", "remove", "-y", package_name]
  | .apt => sudo_cmd ++ ["apt", "remove", "-y", package_name]
  | .pacman => sudo_cmd ++ ["pacman", "-R", "--noconfirm", package_name]
  | .unknown => []

/-- The `valid_actions` list of `PlatformManager.get_service_command`. -/
def valid_actions : List String :=
  ["start", "stop", "restart", "status", "enable", "disable"]

/-- `PlatformManager.get_service_command` (218-232). Unlike the rest of the
layer it raises (`ValueError`) on an invalid action, modelled as the
`Except.error` case carrying the exception's message. -/
def get_service_command (action service_name : String) (use_pkexec : Bool) :
    Except String (List String) :=
  if action ∈ valid_actions then
    .ok ((if use_pkexec then ["pkexec"] else ["sudo"]) ++
      ["systemctl", action, service_name])
  else
    .error ("Invalid action: " ++ action)

/-! ### The script runner (`BaseService._execute_script`, base_service.py 133-208) -/

/-- The fields of a completed `subprocess.run` result that the code consumes. -/
structure ProcResult where
  returncode : Int
  stdout : String
  stderr : String
deriving DecidableEq, Repr

/-- What a `subprocess.run` call did: completed (any exit code), raised
`TimeoutExpired`, or raised some other exception; the string is the
exception's `str`. -/
inductive RunOutcome where
  | completed (r : ProcResult)
  | timedOut (msg : String)
  | raised (msg : String)
deriving DecidableEq, Repr

/-- The PolicyKit-cancellation sniff used throughout: case-insensitive
substring match of "cancelled" or "authentication failed". -/
def auth_sniff (error_msg : String) : Bool :=
  pyIn "cancelled" (pyLower error_msg) ||
    pyIn "authentication failed" (pyLower error_msg)

/-- The `readonly_commands` allow-list of `_execute_script` (155-162). -/
def readonly_commands : List String :=
  ["is-installed", "is-running", "version-get-active",
   "version-list-installed", "version-list-available",
   "vhost-list", "vhost-details", "extension-list",
   "database-list", "user-list", "status-info",
   "php-list-versions", "php-get-active", "ssl-is-enabled",
   "get-version", "config-get", "log-tail", "log-view"]

/-- POSIX `os.path.isabs`. -/
def is_abs (p : String) : Bool :=
  match p.data with
  | '/' :: _ => true
  | _ => false

/-- `os.path.join` for the one shape used here (second component relative). -/
def os_path_join (d p : String) : String :=
  if d = "" then p
  else if d.data.getLast? = some '/' then d ++ p
  else d ++ "/" ++ p

/-- Script path resolution of `_execute_script` (146-147): a relative path is
joined onto the scripts directory. -/
def resolve_script_path (scripts_dir script_path : String) : String :=
  if is_abs script_path then script_path else os_path_join scripts_dir script_path

/-- The `needs_sudo` decision (164-167): `True` unless the first argument is
one of the read-only commands. -/
def exec_needs_sudo (args : List String) : Bool :=
  match args with
  | [] => true
  | a :: _ => !(decide (a ∈ readonly_commands))

/-- The command list `_execute_script` builds (169-175). -/
def exec_cmd (scripts_dir script_path : String) (args : List String) : List String :=
  (if exec_needs_sudo args then ["sudo"] else []) ++
    resolve_script_path scripts_dir script_path :: args

/-- The runner's environment: whether the resolved script path exists, and
what `subprocess.run` does for a given command. -/
structure ExecEnv where
  file_exists : Bool
  run : List String → RunOutcome

/-- A run of `_execute_script`: whether a subprocess was spawned, the command
it was spawned with (`[]` when none), and the returned pair. -/
structure ExecOut where
  spawned : Bool
  cmd : List String
  result : Bool × String
deriving DecidableEq, Repr

/-- `BaseService._execute_script` (133-208). -/
def execute_script (env : ExecEnv) (scripts_dir script_path : String)
    (args : List String) : ExecOut :=
  let path := resolve_script_path scripts_dir script_path
  if env.file_exists = false then
    ⟨false, [], (false, "Script file not found: " ++ path)⟩
  else
    let cmd := exec_cmd scripts_dir script_path args
    match env.run cmd with
    | .completed r =>
      if r.returncode == 0 then
        let so := pyStrip r.stdout
        ⟨true, cmd, (true, if so = "" then "Operation completed successfully" else so)⟩
      else
        let se := pyStrip r.stderr
        let so := pyStrip r.stdout
        let error := if se = "" then (if so = "" then "Unknown error" else so) else se
        if auth_sniff error then
          ⟨true, cmd, (false, "Authentication cancelled or failed")⟩
        else ⟨true, cmd, (false, error)⟩
    | .timedOut _ => ⟨true, cmd, (false, "Operation timed out")⟩
    | .raised m => ⟨true, cmd, (false, m)⟩

/-! ### Service loader and registry (`src/service_loader.py`) -/

/-- A discovered concrete `BaseService` subclass, abstracted to what the
loader consumes: whether its constructor succeeds, the `name` property of
the resulting instance, and a payload distinguishing distinct instances. -/
structure ServiceClass where
  ctorOk : Bool
  name : String
  payload : Nat
deriving DecidableEq, Repr

/-- One module of the scanned directory: either its import fails, or it
defines a list of matching classes (subclasses of `BaseService`, not the base
itself, defined in that module). -/
inductive ModuleLoad where
  | failedImport
  | classes (cs : List ServiceClass)
deriving DecidableEq, Repr

/-- The in-memory registry `self.services`: an insertion-ordered mapping. -/
abbrev Registry := List (String × ServiceClass)

/-- Python dict assignment `self.services[key] = instance`: replace in place
when the key is present, else append. -/
def dict_set : Registry → String → ServiceClass → Registry
  | [], k, v => [(k, v)]
  | p :: rest, k, v =>
    if p.1 = k then (k, v) :: rest else p :: dict_set rest k v

/-- Instantiation of one discovered class (`_load_service_module` 80-89): a
failing constructor is caught and the class skipped; otherwise the instance
is indexed under `service_instance.name.lower()`. -/
def load_class_step (reg : Registry) (c : ServiceClass) : Registry :=
  if c.ctorOk then dict_set reg (pyLower c.name) c else reg

/-- `_load_service_module` (67-94): a failing import is caught and the whole
module skipped; otherwise each matching class is processed. -/
def load_module (reg : Registry) (m : ModuleLoad) : Registry :=
  match m with
  | .failedImport => reg
  | .classes cs => cs.foldl load_class_step reg

/-- `_load_services` (43-65): fold the discovered modules over an empty
registry. -/
def load_services (mods : List ModuleLoad) : Registry :=
  mods.foldl load_module []

/-- `ServiceLoader.get_service` (96-106): `self.services.get(name.lower())`. -/
def get_service (reg : Registry) (service_name : String) : Option ServiceClass :=
  (reg.find? (fun p => p.1 == pyLower service_name)).map (fun p => p.2)

/-- The keys of a registry. -/
def keysOf (reg : Registry) : List String := reg.map (fun p => p.1)

/-- A module that defines exactly one matching class whose constructor
succeeds (the "valid plugin module" of the claim). -/
def validModule : ModuleLoad → Bool
  | .classes [c] => c.ctorOk
  | _ => false

/-- A module that fails to import, or whose single class fails to
instantiate (the "broken module" of the claim). -/
def brokenModule : ModuleLoad → Bool
  | .failedImport => true
  | .classes [c] => !c.ctorOk
  | _ => false

/-- The registry key a valid module contributes. -/
def module_lower_name : ModuleLoad → String
  | .classes (c :: _) => pyLower c.name
  | _ => ""

/-! ### Concrete services (`services/apache.py`, `services/mysql.py`)

Python exceptions are explicit: a verb body is a computation in
`Except PyExn`, and the verb's `try`/`except` handlers are the match on its
result. An `Except.error` of a full verb model would be an exception
escaping the verb boundary.
-/

/-- An exception as the handlers distinguish them: `subprocess.TimeoutExpired`
versus any other `Exception` (with its `str`). -/
inductive PyExn where
  | timeoutExpired
  | exn (msg : String)
deriving DecidableEq, Repr

/-- The oracle environment for the declarative services: results of the
`is_package_installed` and `is_service_active` probes (both catch internally
and return a Bool), the outcome of `subprocess.run` per command, and for the
MySQL script path: the outcome of the password/tempfile/chmod preparation
steps (`some msg` = an exception was raised), the temporary script path, the
generated root password, and the result of `_save_root_password`. -/
structure SysEnv where
  pkg_installed : String → Bool
  service_active : String → Bool
  run : List String → RunOutcome
  prep : Option String
  script_path : String
  root_password : String
  save_ok : Bool

/-- Whether an `Except` computation returned normally. -/
def exceptOk : Except PyExn (Bool × String) → Bool
  | .ok _ => true
  | .error _ => false

/-- A run of a systemctl-backed lifecycle verb: whether the verb's subprocess
was spawned, and the returned pair. -/
structure VerbRun where
  spawned : Bool
  result : Bool × String
deriving DecidableEq, Repr

/-- Modelled from the spec: `get_packages_for_current_os` is called by
`apache.py`/`mysql.py` (e.g. apache.py 113/127/168, mysql.py 125/140/342) but
its definition is not among the repository sources; §4.3(a) describes
declarative services as holding package-name maps per OS, and the callers
treat its result as the package list for the current OS, possibly empty. It
is modelled as the lookup of the current OS classification in the service's
`package_names` map, empty when the OS has no entry. -/
def get_packages_for_current_os (package_names : OSType → List String)
    (pm : Platform) : List String :=
  package_names pm.os_type

/-- `ApacheService.package_names` (apache.py 46-52), keyed by OS; the dict
has no entry for an unknown OS. -/
def apache_package_names : OSType → List String
  | .fedora => ["httpd", "mod_ssl"]
  | .ubuntu => ["apache2"]
  | .debian => ["apache2"]
  | .arch => ["apache"]
  | .unknown => []

/-- `ApacheService.systemd_service_name` (apache.py 55-61). -/
def apache_systemd_service_name (pm : Platform) : String :=
  if pm.os_type = .fedora then "httpd.service" else "apache2.service"

/-- `ApacheService.is_installed` (apache.py 111-123): every package of the
current OS must be installed; no package definition means not installed. -/
def apache_is_installed (pm : Platform) (env : SysEnv) : Bool :=
  let packages := get_packages_for_current_os apache_package_names pm
  if packages.isEmpty then false
  else packages.all env.pkg_installed

/-- `ApacheService.is_running` (apache.py 298-303). -/
def apache_is_running (pm : Platform) (env : SysEnv) : Bool :=
  if !(apache_is_installed pm env) || apache_systemd_service_name pm == "" then false
  else env.service_active (apache_systemd_service_name pm)

/-- The `for package in packages` loop of `ApacheService.install`
(apache.py 131-157), run inside `try`: skip installed packages, run the
install command, and on non-zero exit sniff for authentication cancellation,
else return the truncated failure. `Except.error` is an exception
propagating to the verb's handlers. -/
def apache_install_loop (pm : Platform) (env : SysEnv) :
    List String → Except PyExn (Bool × String)
  | [] => .ok (true, "Apache HTTP Server installed successfully")
  | pkg :: rest =>
    if env.pkg_installed pkg then apache_install_loop pm env rest
    else
      match env.run (get_install_command pm pkg true) with
      | .timedOut _ => .error .timeoutExpired
      | .raised m => .error (.exn m)
      | .completed r =>
        if r.returncode == 0 then apache_install_loop pm env rest
        else
          let error_msg := if r.stderr = "" then "Unknown error" else r.stderr
          if auth_sniff error_msg then
            .ok (false, "Authentication cancelled or failed")
          else .ok (false, "Installation failed: " ++ truncate200 error_msg)

/-- `ApacheService.install` (apache.py 125-164), handlers included. An
`Except.error` result would be an exception escaping `install()`. -/
def apache_install_verb (pm : Platform) (env : SysEnv) :
    Except PyExn (Bool × String) :=
  let packages := get_packages_for_current_os apache_package_names pm
  if packages.isEmpty then .ok (false, "No package definition found for this OS")
  else
    match apache_install_loop pm env packages with
    | .ok res => .ok res
    | .error .timeoutExpired => .ok (false, "Installation timed out (>10 minutes)")
    | .error (.exn e) => .ok (false, "Installation error: " ++ e)

/-- The generic systemctl-backed verb of `ApacheService`
(start/stop/restart/enable/disable, apache.py 214-359): precondition checks
before any subprocess, then `get_service_command` and `subprocess.run` inside
`try`, with a single `except Exception` handler (which also catches
`TimeoutExpired` and a `ValueError` from `get_service_command`). -/
def apache_systemctl_verb (pm : Platform) (env : SysEnv)
    (action okMsg errPfx : String) : VerbRun :=
  if !(apache_is_installed pm env) then
    ⟨false, (false, "Apache HTTP Server is not installed")⟩
  else if apache_systemd_service_name pm == "" then
    ⟨false, (false, "Systemd service name not defined")⟩
  else
    match get_service_command action (apache_systemd_service_name pm) true with
    | .error e => ⟨false, (false, errPfx ++ e)⟩
    | .ok cmd =>
      match env.run cmd with
      | .completed r =>
        if r.returncode == 0 then ⟨true, (true, okMsg)⟩
        else
          let error_msg := if r.stderr = "" then "Unknown error" else r.stderr
          ⟨true, (false, errPfx ++ truncate200 error_msg)⟩
      | .timedOut m => ⟨true, (false, errPfx ++ m)⟩
      | .raised m => ⟨true, (false, errPfx ++ m)⟩

/-- `ApacheService.start` (apache.py 214-240). -/
def apache_start (pm : Platform) (env : SysEnv) : VerbRun :=
  apache_systemctl_verb pm env "start" "Apache HTTP Server started" "Start error: "

/-- `ApacheService.stop` (apache.py 242-268). -/
def apache_stop (pm : Platform) (env : SysEnv) : VerbRun :=
  apache_systemctl_verb pm env "stop" "Apache HTTP Server stopped" "Stop error: "

/-- `ApacheService.restart` (apache.py 270-296). -/
def apache_restart (pm : Platform) (env : SysEnv) : VerbRun :=
  apache_systemctl_verb pm env "restart" "Apache HTTP Server restarted" "Restart error: "

/-- `ApacheService.enable` (apache.py 305-331). -/
def apache_enable (pm : Platform) (env : SysEnv) : VerbRun :=
  apache_systemctl_verb pm env "enable"
    "Apache HTTP Server automatic startup enabled" "Enable error: "

/-- `ApacheService.disable` (apache.py 333-359). -/
def apache_disable (pm : Platform) (env : SysEnv) : VerbRun :=
  apache_systemctl_verb pm env "disable"
    "Apache HTTP Server automatic startup disabled" "Disable error: "

/-- The package loop of `ApacheService.uninstall` (apache.py 178-202): a
not-installed package is skipped; a failing removal returns only on the
authentication sniff and otherwise continues with the remaining packages. -/
def apache_uninstall_loop (pm : Platform) (env : SysEnv) :
    List String → Except PyExn (Bool × String)
  | [] => .ok (true, "Apache HTTP Server uninstalled successfully")
  | pkg :: rest =>
    if !(env.pkg_installed pkg) then apache_uninstall_loop pm env rest
    else
      match env.run (get_remove_command pm pkg true) with
      | .timedOut _ => .error .timeoutExpired
      | .raised m => .error (.exn m)
      | .completed r =>
        if r.returncode == 0 then apache_uninstall_loop pm env rest
        else
          let error_msg := if r.stderr = "" then "Unknown error" else r.stderr
          if auth_sniff error_msg then
            .ok (false, "Authentication cancelled or failed")
          else apache_uninstall_loop pm env rest

/-- `ApacheService.uninstall` (apache.py 166-212), handlers included. The
running service is stopped first; `stop()` catches all its exceptions and its
result is discarded. -/
def apache_uninstall_verb (pm : Platform) (env : SysEnv) :
    Except PyExn (Bool × String) :=
  let packages := get_packages_for_current_os apache_package_names pm
  if packages.isEmpty then .ok (false, "No package definition found for this OS")
  else
    let _ := if apache_is_running pm env then some (apache_stop pm env) else none
    match apache_uninstall_loop pm env packages with
    | .ok res => .ok res
    | .error .timeoutExpired => .ok (false, "Uninstall timed out (>10 minutes)")
    | .error (.exn e) => .ok (false, "Uninstall error: " ++ e)

/-- `MySQLService.package_names` (mysql.py 44-50). -/
def mysql_package_names : OSType → List String
  | .fedora => ["mysql-server", "mysql"]
  | .ubuntu => ["mysql-server", "mysql-client"]
  | .debian => ["mysql-server", "mysql-client"]
  | .arch => ["mysql"]
  | .unknown => []

/-- `MySQLService.systemd_service_name` (mysql.py 52-59). -/
def mysql_systemd_service_name (pm : Platform) : String :=
  if pm.os_type = .fedora ∨ pm.os_type = .arch then "mysqld.service"
  else "mysql.service"

/-- `MySQLService.is_installed` (mysql.py 123-136): at least one server
package (`'server' in pkg or pkg == 'mysql'`) must be installed. -/
def mysql_is_installed (pm : Platform) (env : SysEnv) : Bool :=
  let packages := get_packages_for_current_os mysql_package_names pm
  if packages.isEmpty then false
  else
    let server_packages := packages.filter (fun p => pyIn "server" p || p == "mysql")
    server_packages.any env.pkg_installed

/-- `MySQLService.is_running` (mysql.py 490-495). -/
def mysql_is_running (pm : Platform) (env : SysEnv) : Bool :=
  if !(mysql_is_installed pm env) || mysql_systemd_service_name pm == "" then false
  else env.service_active (mysql_systemd_service_name pm)

/-- The generic systemctl-backed verb of `MySQLService`
(start/stop/restart/enable/disable, mysql.py 403-553): like Apache's but the
command is built inline as `['pkexec', 'systemctl', action, name]` and the
failure branch also sniffs for authentication cancellation. -/
def mysql_systemctl_verb (pm : Platform) (env : SysEnv)
    (action okMsg errPfx : String) : VerbRun :=
  if !(mysql_is_installed pm env) then
    ⟨false, (false, "MySQL Database Server is not installed")⟩
  else if mysql_systemd_service_name pm == "" then
    ⟨false, (false, "Systemd service name not defined")⟩
  else
    match env.run ["pkexec", "systemctl", action, mysql_systemd_service_name pm] with
    | .completed r =>
      if r.returncode == 0 then ⟨true, (true, okMsg)⟩
      else
        let error_msg := if r.stderr = "" then "Unknown error" else r.stderr
        if auth_sniff error_msg then
          ⟨true, (false, "Authentication cancelled or failed")⟩
        else ⟨true, (false, errPfx ++ truncate200 error_msg)⟩
    | .timedOut m => ⟨true, (false, errPfx ++ m)⟩
    | .raised m => ⟨true, (false, errPfx ++ m)⟩

/-- `MySQLService.start` (mysql.py 403-430). -/
def mysql_start (pm : Platform) (env : SysEnv) : VerbRun :=
  mysql_systemctl_verb pm env "start" "MySQL Database Server started" "Start error: "

/-- `MySQLService.stop` (mysql.py 432-459). -/
def mysql_stop (pm : Platform) (env : SysEnv) : VerbRun :=
  mysql_systemctl_verb pm env "stop" "MySQL Database Server stopped" "Stop error: "

/-- `MySQLService.restart` (mysql.py 461-488). -/
def mysql_restart (pm : Platform) (env : SysEnv) : VerbRun :=
  mysql_systemctl_verb pm env "restart" "MySQL Database Server restarted" "Restart error: "

/-- `MySQLService.enable` (mysql.py 497-524). -/
def mysql_enable (pm : Platform) (env : SysEnv) : VerbRun :=
  mysql_systemctl_verb pm env "enable"
    "MySQL Database Server automatic startup enabled" "Enable error: "

/-- `MySQLService.disable` (mysql.py 526-553). -/
def mysql_disable (pm : Platform) (env : SysEnv) : VerbRun :=
  mysql_systemctl_verb pm env "disable"
    "MySQL Database Server automatic startup disabled" "Disable error: "

/-- `MySQLService._post_install_setup` (mysql.py 902-937): enable (exit code
only logged) then start the service; its own `try`/`except` converts any
exception into `(False, "Post-install setup failed: ...")`. -/
def mysql_post_install_setup (pm : Platform) (env : SysEnv) : Bool × String :=
  if mysql_systemd_service_name pm == "" then
    (false, "Systemd service name not defined")
  else
    match env.run ["pkexec", "systemctl", "enable", mysql_systemd_service_name pm] with
    | .timedOut m => (false, "Post-install setup failed: " ++ m)
    | .raised m => (false, "Post-install setup failed: " ++ m)
    | .completed _ =>
      match env.run ["pkexec", "systemctl", "start", mysql_systemd_service_name pm] with
      | .timedOut m => (false, "Post-install setup failed: " ++ m)
      | .raised m => (false, "Post-install setup failed: " ++ m)
      | .completed r =>
        if r.returncode == 0 then (true, "MySQL service started successfully")
        else
          (false, "Failed to start MySQL: " ++
            truncate200 (if r.stderr = "" then "Unknown error" else r.stderr))

/-- The `try` body of `MySQLService.install` (mysql.py 144-198): password
generation, script creation, tempfile write and chmod (collapsed into
`env.prep`, whose `some msg` case is an exception), the elevated script run,
the authentication sniff, the password save (a Bool that is only logged) and
the post-install setup with its two success messages. -/
def mysql_install_body (pm : Platform) (env : SysEnv) :
    Except PyExn (Bool × String) :=
  match env.prep with
  | some e => .error (.exn e)
  | none =>
    match env.run ["pkexec", "bash", env.script_path] with
    | .timedOut _ => .error .timeoutExpired
    | .raised m => .error (.exn m)
    | .completed r =>
      if r.returncode == 0 then
        let _ := env.save_ok
        match mysql_post_install_setup pm env with
        | (true, _) =>
          .ok (true, "MySQL Database Server installed successfully" ++
            "\n\n✅ Root password: " ++ env.root_password ++ "\n\n" ++
            "Password saved locally for management operations")
        | (false, start_msg) =>
          .ok (true,
            "MySQL Database Server installed successfully but failed to start: " ++
            start_msg ++ "\n\n✅ Root password: " ++ env.root_password ++ "\n\n" ++
            "Password saved locally for management operations")
      else
        let error_msg := if r.stderr = "" then "Unknown error" else r.stderr
        if auth_sniff error_msg then
          .ok (false, "Authentication cancelled or failed")
        else .ok (false, "Installation failed: " ++ truncate200 error_msg)

/-- `MySQLService.install` (mysql.py 138-205), handlers included. -/
def mysql_install_verb (pm : Platform) (env : SysEnv) :
    Except PyExn (Bool × String) :=
  let packages := get_packages_for_current_os mysql_package_names pm
  if packages.isEmpty then .ok (false, "No package definition found for this OS")
  else
    match mysql_install_body pm env with
    | .ok res => .ok res
    | .error .timeoutExpired => .ok (false, "Installation timed out (>10 minutes)")
    | .error (.exn e) => .ok (false, "Post-install setup failed: " ++ e)

/-- The `try` body of `MySQLService.uninstall` (mysql.py 346-392): stop the
running service (result discarded, `stop()` cannot raise), create and run the
uninstall script, sniff authentication cancellation on failure. -/
def mysql_uninstall_body (pm : Platform) (env : SysEnv) :
    Except PyExn (Bool × String) :=
  let _ := if mysql_is_running pm env then some (mysql_stop pm env) else none
  match env.prep with
  | some e => .error (.exn e)
  | none =>
    match env.run ["pkexec", "bash", env.script_path] with
    | .timedOut _ => .error .timeoutExpired
    | .raised m => .error (.exn m)
    | .completed r =>
      if r.returncode == 0 then
        .ok (true, "MySQL Database Server uninstalled successfully" ++
          "\n\nNOTE: Database files in /var/lib/mysql are preserved. Remove manually if needed.")
      else
        let error_msg := if r.stderr = "" then "Unknown error" else r.stderr
        if auth_sniff error_msg then
          .ok (false, "Authentication cancelled or failed")
        else .ok (false, "Uninstall failed: " ++ truncate200 error_msg)

/-- `MySQLService.uninstall` (mysql.py 340-401), handlers included. -/
def mysql_uninstall_verb (pm : Platform) (env : SysEnv) :
    Except PyExn (Bool × String) :=
  let packages := get_packages_for_current_os mysql_package_names pm
  if packages.isEmpty then .ok (false, "No package definition found for this OS")
  else
    match mysql_uninstall_body pm env with
    | .ok res => .ok res
    | .error .timeoutExpired => .ok (false, "Uninstall timed out (>10 minutes)")
    | .error (.exn e) => .ok (false, "Uninstall error: " ++ e)

/-- A platform/oracle fixture for concrete witnesses: Fedora with dnf,
nothing installed, nothing active, every subprocess raising an exception
whose `str` is "boom". -/
def samplePlatform : Platform := ⟨.fedora, .dnf⟩

/-- See `samplePlatform`. -/
def sampleRaisingEnv : SysEnv :=
  ⟨fun _ => false, fun _ => false, fun _ => .raised "boom", none, "", "", true⟩

/-- Like `sampleRaisingEnv` but with every package reported installed. -/
def sampleRaisingEnvInstalled : SysEnv :=
  ⟨fun _ => true, fun _ => false, fun _ => .raised "boom", none, "", "", true⟩

/-! ## Theorems -/

theorem containsSub_iff (s pat : List Char) : containsSub s pat = true ↔ pat <:+: s := by
  induction s with
  | nil =>
    simp [containsSub, List.isEmpty_iff]
  | cons a t ih =>
    simp only [containsSub, Bool.or_eq_true, ih, List.infix_cons_iff,
      List.isPrefixOf_iff_prefix]

/-! ### Whitespace lemmas for the `strip`-then-sniff path of the runner -/

theorem toLower_of_whitespace (c : Char) (h : c.isWhitespace = true) :
    c.toLower = c := by
  have hc : ((c = ' ' ∨ c = '\t') ∨ c = '\r') ∨ c = '\n' := by
    simpa [Char.isWhitespace, Bool.or_eq_true, decide_eq_true_eq] using h
  rcases hc with ((h | h) | h) | h <;> subst h <;> decide

theorem infix_map_toLower_dropWhile (p : List Char)
    (hh : ∀ c, p.head? = some c → c.isWhitespace = false) :
    ∀ l : List Char, p <:+: l.map Char.toLower →
      p <:+: (l.dropWhile Char.isWhitespace).map Char.toLower := by
  intro l
  induction l with
  | nil => intro h; simpa using h
  | cons a t ih =>
    intro hinf
    by_cases hw : a.isWhitespace = true
    · rw [List.dropWhile_cons_of_pos hw]
      apply ih
      rw [List.map_cons, toLower_of_whitespace a hw] at hinf
      rcases List.infix_cons_iff.mp hinf with hpre | hrest
      · cases p with
        | nil => exact List.nil_infix
        | cons x xs =>
          have hx : x = a := (List.cons_prefix_cons.mp hpre).1
          have := hh x rfl
          rw [hx, hw] at this
          exact absurd this (by simp)
      · exact hrest
    · rw [List.dropWhile_cons_of_neg (by simpa using hw)]
      exact hinf

theorem infix_map_toLower_stripL (p l : List Char)
    (hh : ∀ c, p.head? = some c → c.isWhitespace = false)
    (hl : ∀ c, p.getLast? = some c → c.isWhitespace = false) :
    p <:+: l.map Char.toLower → p <:+: (stripL l).map Char.toLower := by
  intro hinf
  have h1 : p <:+: (l.dropWhile Char.isWhitespace).map Char.toLower :=
    infix_map_toLower_dropWhile p hh l hinf
  have h2 : p.reverse <:+: ((l.dropWhile Char.isWhitespace).reverse).map Char.toLower := by
    rw [List.map_reverse]
    exact List.reverse_infix.mpr h1
  have h3 : p.reverse <:+:
      (((l.dropWhile Char.isWhitespace).reverse).dropWhile Char.isWhitespace).map
        Char.toLower := by
    refine infix_map_toLower_dropWhile p.reverse ?_ _ h2
    intro c hc
    rw [List.head?_reverse] at hc
    exact hl c hc
  unfold stripL
  rw [List.map_reverse]
  have := List.reverse_infix.mpr h3
  simpa using this

/-- The `strip`-then-lower-then-sniff chain: if the pattern (nonempty, with
non-whitespace first and last character) occurs in the lowercased string, it
still occurs after `strip`, and the stripped string is nonempty. -/
theorem pyIn_pyLower_pyStrip (pat s : String)
    (hne : pat.data ≠ [])
    (hh : ∀ c, pat.data.head? = some c → c.isWhitespace = false)
    (hl : ∀ c, pat.data.getLast? = some c → c.isWhitespace = false)
    (h : pyIn pat (pyLower s) = true) :
    pyIn pat (pyLower (pyStrip s)) = true ∧ pyStrip s ≠ "" := by
  have h1 : pat.data <:+: s.data.map Char.toLower := (containsSub_iff _ _).mp h
  have h2 : pat.data <:+: (stripL s.data).map Char.toLower :=
    infix_map_toLower_stripL pat.data s.data hh hl h1
  constructor
  · exact (containsSub_iff _ _).mpr h2
  · intro hempty
    have hdata : stripL s.data = [] := congrArg String.data hempty
    rw [hdata] at h2
    simp at h2
    exact hne h2

/-- C1: `get_status` returns `not_installed` iff not installed, `running` iff
installed and running, `stopped` iff installed and not running, and never
returns a value outside the four-element status enumeration. -/
theorem get_status_state_machine (inst run : Bool) :
    (get_status inst run = .not_installed ↔ inst = false) ∧
    (get_status inst run = .running ↔ (inst = true ∧ run = true)) ∧
    (get_status inst run = .stopped ↔ (inst = true ∧ run = false)) ∧
    (get_status inst run = .not_installed ∨ get_status inst run = .running ∨
      get_status inst run = .stopped ∨ get_status inst run = .unknown) := by
  cases inst <;> cases run <;> simp [get_status]

/-- C10: `get_service_command` returns the elevated systemctl command for the
six valid actions (pkexec by default, sudo when `use_pkexec` is false) and
raises `ValueError` for every other action. -/
theorem get_service_command_spec (action service_name : String) (use_pkexec : Bool) :
    (action ∈ valid_actions →
      get_service_command action service_name use_pkexec =
        .ok ((if use_pkexec then ["pkexec"] else ["sudo"]) ++
          ["systemctl", action, service_name])) ∧
    (action ∉ valid_actions →
      get_service_command action service_name use_pkexec =
        .error ("Invalid action: " ++ action)) := by
  constructor
  · intro h
    simp [get_service_command, h]
  · intro h
    simp [get_service_command, h]

/-- Witness for `get_service_command_spec` at a valid and an invalid action. -/
theorem get_service_command_spec_witness :
    get_service_command "status" "httpd.service" true =
      .ok ["pkexec", "systemctl", "status", "httpd.service"] ∧
    get_service_command "frobnicate" "httpd.service" false =
      .error "Invalid action: frobnicate" := by
  constructor
  · have h := (get_service_command_spec "status" "httpd.service" true).1 (by decide)
    simpa using h
  · exact (get_service_command_spec "frobnicate" "httpd.service" false).2 (by decide)

/-- C5: when the resolved script path does not exist, `_execute_script`
returns `(False, "Script file not found: <resolved path>")` and spawns no
subprocess. -/
theorem execute_script_missing_file (env : ExecEnv) (sd sp : String)
    (args : List String) (h : env.file_exists = false) :
    execute_script env sd sp args =
      ⟨false, [], (false, "Script file not found: " ++ resolve_script_path sd sp)⟩ := by
  unfold execute_script
  rw [h]
  simp

/-- Witness for `execute_script_missing_file` on a concrete invocation. -/
theorem execute_script_missing_file_witness :
    execute_script ⟨false, fun _ => .raised "unused"⟩
        "/opt/app/scripts" "apache.sh" ["install"] =
      ⟨false, [], (false, "Script file not found: /opt/app/scripts/apache.sh")⟩ := by
  have h := execute_script_missing_file ⟨false, fun _ => .raised "unused"⟩
    "/opt/app/scripts" "apache.sh" ["install"] rfl
  exact h.trans (by decide)

/-- The command `_execute_script` spawns whenever the script exists, for any
run outcome. -/
theorem execute_script_cmd_eq (env : ExecEnv) (sd sp : String)
    (args : List String) (hex : env.file_exists = true) :
    (execute_script env sd sp args).cmd = exec_cmd sd sp args := by
  unfold execute_script
  rw [hex]
  simp only [Bool.true_eq_false, if_false]
  cases env.run (exec_cmd sd sp args) with
  | completed r =>
    by_cases hrc : r.returncode == 0
    · simp [hrc]
    · simp only [Bool.not_eq_true] at hrc
      simp only [hrc, if_false]
      split_ifs <;> rfl
  | timedOut m => rfl
  | raised m => rfl

/-- C7: with an existing script, a first argument from the read-only
allow-list executes the script without the elevation wrapper; any other first
argument, or an empty argument list, prefixes the command with `sudo`. -/
theorem execute_script_elevation (env : ExecEnv) (sd sp : String)
    (args : List String) (hex : env.file_exists = true) :
    (∀ a rest, args = a :: rest → a ∈ readonly_commands →
      (execute_script env sd sp args).cmd = resolve_script_path sd sp :: args) ∧
    (∀ a rest, args = a :: rest → a ∉ readonly_commands →
      (execute_script env sd sp args).cmd =
        "sudo" :: resolve_script_path sd sp :: args) ∧
    (args = [] →
      (execute_script env sd sp args).cmd =
        "sudo" :: resolve_script_path sd sp :: args) := by
  refine ⟨?_, ?_, ?_⟩
  · intro a rest harg hmem
    rw [execute_script_cmd_eq env sd sp args hex, harg]
    simp [exec_cmd, exec_needs_sudo, hmem]
  · intro a rest harg hmem
    rw [execute_script_cmd_eq env sd sp args hex, harg]
    simp [exec_cmd, exec_needs_sudo, hmem]
  · intro harg
    rw [execute_script_cmd_eq env sd sp args hex, harg]
    simp [exec_cmd, exec_needs_sudo]

/-- Witness for `execute_script_elevation`: a read-only probe runs without
`sudo`; a mutating verb and an empty argument list run behind `sudo`. -/
theorem execute_script_elevation_witness :
    (execute_script ⟨true, fun _ => .completed ⟨0, "ok", ""⟩⟩
        "/opt/app/scripts" "apache.sh" ["is-installed"]).cmd =
      ["/opt/app/scripts/apache.sh", "is-installed"] ∧
    (execute_script ⟨true, fun _ => .completed ⟨0, "ok", ""⟩⟩
        "/opt/app/scripts" "apache.sh" ["install"]).cmd =
      ["sudo", "/opt/app/scripts/apache.sh", "install"] ∧
    (execute_script ⟨true, fun _ => .completed ⟨0, "ok", ""⟩⟩
        "/opt/app/scripts" "apache.sh" []).cmd =
      ["sudo", "/opt/app/scripts/apache.sh"] := by
  refine ⟨?_, ?_, ?_⟩
  · have h := (execute_script_elevation ⟨true, fun _ => .completed ⟨0, "ok", ""⟩⟩
      "/opt/app/scripts" "apache.sh" ["is-installed"] rfl).1 "is-installed" [] rfl
      (by decide)
    exact h.trans (by decide)
  · have h := (execute_script_elevation ⟨true, fun _ => .completed ⟨0, "ok", ""⟩⟩
      "/opt/app/scripts" "apache.sh" ["install"] rfl).2.1 "install" [] rfl
      (by decide)
    exact h.trans (by decide)
  · have h := (execute_script_elevation ⟨true, fun _ => .completed ⟨0, "ok", ""⟩⟩
      "/opt/app/scripts" "apache.sh" [] rfl).2.2 rfl
    exact h.trans (by decide)

/-- C8 counterexample: `_detect_os` consults `ID_LIKE` only for debian and
arch, not for fedora and ubuntu. With `ID=centos, ID_LIKE=fedora` the code
yields `unknown` while the claimed rule (`ID` and `ID_LIKE` matched against
all four) yields `fedora`; with `ID=linuxmint, ID_LIKE="ubuntu debian"` the
code yields `debian` while the claimed rule yields `ubuntu`. -/
theorem detect_os_counterexample :
    detect_os (.content "centos" "fedora") = .unknown ∧
    detect_os_claimed (.content "centos" "fedora") = .fedora ∧
    detect_os (.content "linuxmint" "ubuntu debian") = .debian ∧
    detect_os_claimed (.content "linuxmint" "ubuntu debian") = .ubuntu := by
  refine ⟨by decide, by decide, by decide, by decide⟩

/-- C8 amended: the classification matches `fedora` and `ubuntu` against the
`ID` field only and `debian` and `arch` against `ID` or `ID_LIKE`
(case-insensitive substring, in source order); a missing file, a failed read
(the caught exception path) or unmatched fields yield `unknown`. -/
theorem detect_os_characterization :
    detect_os .missing = .unknown ∧
    detect_os .readFailure = .unknown ∧
    ∀ idF idL,
      (detect_os (.content idF idL) = .fedora ↔
        pyIn "fedora" (pyLower idF) = true) ∧
      (detect_os (.content idF idL) = .ubuntu ↔
        (pyIn "fedora" (pyLower idF) = false ∧
          pyIn "ubuntu" (pyLower idF) = true)) ∧
      (detect_os (.content idF idL) = .debian ↔
        (pyIn "fedora" (pyLower idF) = false ∧
          pyIn "ubuntu" (pyLower idF) = false ∧
          (pyIn "debian" (pyLower idF) = true ∨ pyIn "debian" (pyLower idL) = true))) ∧
      (detect_os (.content idF idL) = .arch ↔
        (pyIn "fedora" (pyLower idF) = false ∧
          pyIn "ubuntu" (pyLower idF) = false ∧
          pyIn "debian" (pyLower idF) = false ∧ pyIn "debian" (pyLower idL) = false ∧
          (pyIn "arch" (pyLower idF) = true ∨ pyIn "arch" (pyLower idL) = true))) ∧
      (detect_os (.content idF idL) = .unknown ↔
        (pyIn "fedora" (pyLower idF) = false ∧
          pyIn "ubuntu" (pyLower idF) = false ∧
          pyIn "debian" (pyLower idF) = false ∧ pyIn "debian" (pyLower idL) = false ∧
          pyIn "arch" (pyLower idF) = false ∧ pyIn "arch" (pyLower idL) = false)) := by
  refine ⟨rfl, rfl, ?_⟩
  intro idF idL
  cases h1 : pyIn "fedora" (pyLower idF) <;>
    cases h2 : pyIn "ubuntu" (pyLower idF) <;>
    cases h3 : pyIn "debian" (pyLower idF) <;>
    cases h4 : pyIn "debian" (pyLower idL) <;>
    cases h5 : pyIn "arch" (pyLower idF) <;>
    cases h6 : pyIn "arch" (pyLower idL) <;>
    simp [detect_os, h1, h2, h3, h4, h5, h6]

/-- The two sniff patterns begin and end with non-whitespace characters. -/
theorem sniff_pat_nonws :
    (∀ c, ("cancelled" : String).data.head? = some c → c.isWhitespace = false) ∧
    (∀ c, ("cancelled" : String).data.getLast? = some c → c.isWhitespace = false) ∧
    (∀ c, ("authentication failed" : String).data.head? = some c →
      c.isWhitespace = false) ∧
    (∀ c, ("authentication failed" : String).data.getLast? = some c →
      c.isWhitespace = false) := by
  refine ⟨?_, ?_, ?_, ?_⟩ <;> intro c hc
  · have h1 : some 'c' = some c := hc
    injection h1 with h2
    rw [← h2]
    decide
  · have h1 : some 'd' = some c := hc
    injection h1 with h2
    rw [← h2]
    decide
  · have h1 : some 'a' = some c := hc
    injection h1 with h2
    rw [← h2]
    decide
  · have h1 : some 'd' = some c := hc
    injection h1 with h2
    rw [← h2]
    decide

/-- C4 counterexample: an invocation whose captured stderr contains
"cancelled" but whose exit code is 0 returns the success result, not the
authentication-cancelled result — the sniff is only reached on non-zero
exit. -/
theorem execute_script_cancelled_counterexample :
    pyIn "cancelled" (pyLower "operation cancelled") = true ∧
    (execute_script ⟨true, fun _ => .completed ⟨0, "", "operation cancelled"⟩⟩
        "/opt/scripts" "apache.sh" ["install"]).result =
      (true, "Operation completed successfully") ∧
    (execute_script ⟨true, fun _ => .completed ⟨0, "", "operation cancelled"⟩⟩
        "/opt/scripts" "apache.sh" ["install"]).result ≠
      (false, "Authentication cancelled or failed") := by
  refine ⟨by decide, by decide, by decide⟩

/-- C4 amended: for every invocation with a non-zero exit code whose captured
stderr contains "cancelled" (any case) — likewise "authentication failed" —
the result is `(False, "Authentication cancelled or failed")`, regardless of
the rest of the output text. -/
theorem execute_script_auth_cancelled (env : ExecEnv) (sd sp : String)
    (args : List String) (rc : Int) (so se : String)
    (hex : env.file_exists = true)
    (hrun : env.run (exec_cmd sd sp args) = .completed ⟨rc, so, se⟩)
    (hrc : rc ≠ 0)
    (hsniff : pyIn "cancelled" (pyLower se) = true ∨
      pyIn "authentication failed" (pyLower se) = true) :
    (execute_script env sd sp args).result =
      (false, "Authentication cancelled or failed") := by
  have hstrip : (pyIn "cancelled" (pyLower (pyStrip se)) = true ∨
      pyIn "authentication failed" (pyLower (pyStrip se)) = true) ∧
      pyStrip se ≠ "" := by
    rcases hsniff with h | h
    · have := pyIn_pyLower_pyStrip "cancelled" se (by decide)
        sniff_pat_nonws.1 sniff_pat_nonws.2.1 h
      exact ⟨Or.inl this.1, this.2⟩
    · have := pyIn_pyLower_pyStrip "authentication failed" se (by decide)
        sniff_pat_nonws.2.2.1 sniff_pat_nonws.2.2.2 h
      exact ⟨Or.inr this.1, this.2⟩
  have hsa : auth_sniff (pyStrip se) = true := by
    rcases hstrip.1 with h | h <;> simp [auth_sniff, h]
  have hrc' : (rc == 0) = false := by simpa using hrc
  unfold execute_script
  rw [hex]
  simp only [Bool.true_eq_false, if_false]
  rw [hrun]
  simp only [hrc', Bool.false_eq_true, if_false]
  rw [if_neg hstrip.2]
  simp [hsa]

/-- Witness for `execute_script_auth_cancelled` on a concrete invocation. -/
theorem execute_script_auth_cancelled_witness :
    (execute_script ⟨true, fun _ => .completed ⟨1, "", "Request CANCELLED by user"⟩⟩
        "/opt/scripts" "apache.sh" ["install"]).result =
      (false, "Authentication cancelled or failed") :=
  execute_script_auth_cancelled
    ⟨true, fun _ => .completed ⟨1, "", "Request CANCELLED by user"⟩⟩
    "/opt/scripts" "apache.sh" ["install"] 1 "" "Request CANCELLED by user"
    rfl rfl (by decide) (Or.inl (by decide))

/-! ### Registry lemmas -/

theorem dict_set_keysOf_not_mem (reg : Registry) (k : String) (v : ServiceClass)
    (h : k ∉ keysOf reg) :
    keysOf (dict_set reg k v) = keysOf reg ++ [k] := by
  induction reg with
  | nil => simp [dict_set, keysOf]
  | cons p rest ih =>
    have h1 : ¬ k = p.1 ∧ k ∉ keysOf rest := by
      simpa [keysOf, not_or] using h
    have hpk : ¬ (p.1 = k) := fun hp => h1.1 hp.symm
    simp only [dict_set, if_neg hpk]
    have h2 := ih h1.2
    simp only [keysOf, List.map_cons] at h2 ⊢
    rw [h2]
    simp

theorem dict_set_keysOf_mem (reg : Registry) (k : String) (v : ServiceClass)
    (h : k ∈ keysOf reg) :
    keysOf (dict_set reg k v) = keysOf reg := by
  induction reg with
  | nil => simp [keysOf] at h
  | cons p rest ih =>
    by_cases hp : p.1 = k
    · simp [dict_set, if_pos hp, keysOf, hp]
    · have hk : k ∈ keysOf rest := by
        simp only [keysOf, List.map_cons, List.mem_cons] at h
        exact h.resolve_left (fun he => hp he.symm)
      simp only [dict_set, if_neg hp]
      have h2 := ih hk
      simp only [keysOf, List.map_cons] at h2 ⊢
      rw [h2]

theorem dict_set_length_mem (reg : Registry) (k : String) (v : ServiceClass)
    (h : k ∈ keysOf reg) :
    (dict_set reg k v).length = reg.length := by
  have h1 : (dict_set reg k v).length = (keysOf (dict_set reg k v)).length := by
    simp [keysOf]
  have h2 : reg.length = (keysOf reg).length := by simp [keysOf]
  rw [h1, dict_set_keysOf_mem reg k v h, h2]

theorem find?_dict_set (reg : Registry) (k : String) (v : ServiceClass) :
    (dict_set reg k v).find? (fun p => p.1 == k) = some (k, v) := by
  induction reg with
  | nil => simp [dict_set]
  | cons p rest ih =>
    by_cases hp : p.1 = k
    · simp only [dict_set, if_pos hp]
      simp
    · simp only [dict_set, if_neg hp]
      rw [List.find?_cons_of_neg _ (by simpa using hp)]
      exact ih

theorem dict_set_pred (P : String × ServiceClass → Prop) (reg : Registry)
    (k : String) (v : ServiceClass)
    (hreg : ∀ p ∈ reg, P p) (hkv : P (k, v)) :
    ∀ p ∈ dict_set reg k v, P p := by
  induction reg with
  | nil =>
    intro p hp
    simp only [dict_set, List.mem_singleton] at hp
    exact hp ▸ hkv
  | cons q rest ih =>
    intro p hp
    by_cases hq : q.1 = k
    · simp only [dict_set, if_pos hq, List.mem_cons] at hp
      rcases hp with hp | hp
      · exact hp ▸ hkv
      · exact hreg p (List.mem_cons_of_mem q hp)
    · simp only [dict_set, if_neg hq, List.mem_cons] at hp
      rcases hp with hp | hp
      · exact hp ▸ hreg q (List.mem_cons_self q rest)
      · exact ih (fun x hx => hreg x (List.mem_cons_of_mem q hx)) p hp

theorem load_module_valid_eq (reg : Registry) (c : ServiceClass)
    (hc : c.ctorOk = true) :
    load_module reg (.classes [c]) = dict_set reg (pyLower c.name) c := by
  simp [load_module, load_class_step, hc]

theorem load_module_broken_eq (reg : Registry) (m : ModuleLoad)
    (hb : brokenModule m = true) :
    load_module reg m = reg := by
  cases m with
  | failedImport => rfl
  | classes cs =>
    cases cs with
    | nil => simp [brokenModule] at hb
    | cons c cs' =>
      cases cs' with
      | nil =>
        have hc : c.ctorOk = false := by simpa [brokenModule] using hb
        simp [load_module, load_class_step, hc]
      | cons c2 cs'' => simp [brokenModule] at hb

/-- Folding the modules over a registry appends exactly the lowercase names of
the valid modules to the key list, provided those names are fresh and
pairwise distinct; broken modules contribute nothing. -/
theorem load_fold_keys :
    ∀ (mods : List ModuleLoad) (reg : Registry),
      (∀ m ∈ mods, validModule m = true ∨ brokenModule m = true) →
      (∀ n ∈ (mods.filter (fun m => validModule m)).map module_lower_name,
        n ∉ keysOf reg) →
      ((mods.filter (fun m => validModule m)).map module_lower_name).Nodup →
      keysOf (mods.foldl load_module reg) =
        keysOf reg ++ (mods.filter (fun m => validModule m)).map module_lower_name := by
  intro mods
  induction mods with
  | nil => intro reg _ _ _; simp
  | cons m rest ih =>
    intro reg hall hdisj hnodup
    by_cases hv : validModule m = true
    · cases m with
      | failedImport => simp [validModule] at hv
      | classes cs =>
        cases cs with
        | nil => simp [validModule] at hv
        | cons c cs' =>
          cases cs' with
          | cons c2 cs'' => simp [validModule] at hv
          | nil =>
            have hc : c.ctorOk = true := by simpa [validModule] using hv
            have hfil :
                (ModuleLoad.classes [c] :: rest).filter (fun m => validModule m) =
                  .classes [c] :: rest.filter (fun m => validModule m) := by
              simp [List.filter_cons, hv]
            rw [List.foldl_cons, load_module_valid_eq reg c hc]
            rw [hfil] at hdisj hnodup ⊢
            simp only [List.map_cons, List.nodup_cons] at hnodup
            have hkey : module_lower_name (.classes [c]) = pyLower c.name := rfl
            have hfresh : pyLower c.name ∉ keysOf reg := by
              have := hdisj (module_lower_name (.classes [c]))
                (by simp [List.mem_cons])
              simpa [hkey] using this
            have hkeys1 := dict_set_keysOf_not_mem reg (pyLower c.name) c hfresh
            have hdisj' : ∀ n ∈ (rest.filter (fun m => validModule m)).map
                module_lower_name, n ∉ keysOf (dict_set reg (pyLower c.name) c) := by
              intro n hn
              rw [hkeys1]
              simp only [List.mem_append, List.mem_singleton, not_or]
              refine ⟨hdisj n (by simp [hn]), ?_⟩
              intro he
              exact hnodup.1 (by rw [hkey, ← he]; exact hn)
            have := ih (dict_set reg (pyLower c.name) c)
              (fun x hx => hall x (List.mem_cons_of_mem _ hx)) hdisj' hnodup.2
            rw [this, hkeys1]
            simp [hkey]
    · have hb : brokenModule m = true := (hall m (List.mem_cons_self m rest)).resolve_left hv
      have hfil : (m :: rest).filter (fun m => validModule m) =
          rest.filter (fun m => validModule m) := by
        simp [List.filter_cons, hv]
      rw [List.foldl_cons, load_module_broken_eq reg m hb, hfil]
      rw [hfil] at hdisj hnodup
      exact ih reg (fun x hx => hall x (List.mem_cons_of_mem _ hx)) hdisj hnodup

/-- C3: scanning a directory whose modules are each either a valid plugin
(one matching class with a working constructor) or broken (failed import or
failed instantiation), with distinct lowercase names among the valid ones,
produces a registry with exactly one entry per valid module — every valid
module's key is present and the broken ones are skipped without aborting the
load. -/
theorem load_services_count (mods : List ModuleLoad)
    (hall : ∀ m ∈ mods, validModule m = true ∨ brokenModule m = true)
    (hnodup : ((mods.filter (fun m => validModule m)).map module_lower_name).Nodup) :
    (load_services mods).length =
      (mods.filter (fun m => validModule m)).length ∧
    ∀ m ∈ mods, validModule m = true →
      module_lower_name m ∈ keysOf (load_services mods) := by
  have hkeys := load_fold_keys mods [] hall (by simp [keysOf]) hnodup
  have hload : load_services mods = mods.foldl load_module [] := rfl
  constructor
  · have h1 : (load_services mods).length = (keysOf (load_services mods)).length := by
      simp [keysOf]
    rw [h1, hload, hkeys]
    simp [keysOf]
  · intro m hm hv
    rw [hload, hkeys]
    simp only [keysOf, List.map_nil, List.nil_append]
    exact List.mem_map_of_mem module_lower_name (List.mem_filter.mpr ⟨hm, hv⟩)

/-- Witness for `load_services_count`: two valid plugins and two broken
modules yield a registry of exactly two entries, with both keys present. -/
theorem load_services_count_witness :
    (load_services [.classes [⟨true, "apache", 0⟩], .failedImport,
        .classes [⟨false, "php", 1⟩], .classes [⟨true, "MySQL", 2⟩]]).length = 2 ∧
    module_lower_name (.classes [⟨true, "MySQL", 2⟩]) ∈
      keysOf (load_services [.classes [⟨true, "apache", 0⟩], .failedImport,
        .classes [⟨false, "php", 1⟩], .classes [⟨true, "MySQL", 2⟩]]) := by
  have h := load_services_count
    [.classes [⟨true, "apache", 0⟩], .failedImport,
      .classes [⟨false, "php", 1⟩], .classes [⟨true, "MySQL", 2⟩]]
    (by decide) (by decide)
  refine ⟨h.1.trans (by decide), ?_⟩
  exact h.2 (.classes [⟨true, "MySQL", 2⟩]) (by decide) (by decide)

theorem load_class_fold_wf :
    ∀ (cs : List ServiceClass) (reg : Registry),
      (∀ p ∈ reg, p.1 = pyLower p.2.name) →
      ∀ p ∈ cs.foldl load_class_step reg, p.1 = pyLower p.2.name := by
  intro cs
  induction cs with
  | nil => intro reg hreg; simpa using hreg
  | cons c rest ih =>
    intro reg hreg
    rw [List.foldl_cons]
    apply ih
    intro p hp
    by_cases hc : c.ctorOk = true
    · simp only [load_class_step, hc, if_true] at hp
      exact dict_set_pred (fun q => q.1 = pyLower q.2.name) reg
        (pyLower c.name) c hreg rfl p hp
    · simp only [Bool.not_eq_true] at hc
      simp only [load_class_step, hc, Bool.false_eq_true, if_false] at hp
      exact hreg p hp

theorem load_fold_wf :
    ∀ (mods : List ModuleLoad) (reg : Registry),
      (∀ p ∈ reg, p.1 = pyLower p.2.name) →
      ∀ p ∈ mods.foldl load_module reg, p.1 = pyLower p.2.name := by
  intro mods
  induction mods with
  | nil => intro reg hreg; simpa using hreg
  | cons m rest ih =>
    intro reg hreg
    rw [List.foldl_cons]
    apply ih
    cases m with
    | failedImport => exact hreg
    | classes cs => exact load_class_fold_wf cs reg hreg

/-- C6: every registry entry is indexed under the instance's lowercase name;
`get_service` is case-insensitive — a hit is a service whose lowercase name
equals the query's lowercase form, and a miss means no loaded service has
that lowercase name; and a second class with the same lowercase name loaded
later silently replaces the earlier instance without growing the registry. -/
theorem registry_lookup :
    (∀ (mods : List ModuleLoad), ∀ p ∈ load_services mods,
      p.1 = pyLower p.2.name) ∧
    (∀ (mods : List ModuleLoad) (s : String) (svc : ServiceClass),
      get_service (load_services mods) s = some svc →
      pyLower svc.name = pyLower s) ∧
    (∀ (mods : List ModuleLoad) (s : String),
      get_service (load_services mods) s = none →
      ∀ p ∈ load_services mods, pyLower p.2.name ≠ pyLower s) ∧
    (∀ (mods : List ModuleLoad) (c1 c2 : ServiceClass),
      c1.ctorOk = true → c2.ctorOk = true →
      pyLower c1.name = pyLower c2.name →
      get_service (load_services (mods ++ [.classes [c1], .classes [c2]]))
          c2.name = some c2 ∧
      (load_services (mods ++ [.classes [c1], .classes [c2]])).length =
        (load_services (mods ++ [.classes [c1]])).length) := by
  have hwf : ∀ (mods : List ModuleLoad), ∀ p ∈ load_services mods,
      p.1 = pyLower p.2.name := by
    intro mods
    exact load_fold_wf mods [] (by simp)
  refine ⟨hwf, ?_, ?_, ?_⟩
  · intro mods s svc hget
    rcases Option.map_eq_some'.mp hget with ⟨p, hfind, hp2⟩
    have hpred := List.find?_some hfind
    have hmem := List.mem_of_find?_eq_some hfind
    have h1 : p.1 = pyLower s := by simpa using hpred
    have h2 := hwf mods p hmem
    rw [← hp2, ← h2, h1]
  · intro mods s hget p hmem
    have hfind : (load_services mods).find? (fun p => p.1 == pyLower s) = none := by
      cases hf : (load_services mods).find? (fun p => p.1 == pyLower s) with
      | none => rfl
      | some q => rw [get_service, hf] at hget; simp at hget
    have := List.find?_eq_none.mp hfind p hmem
    have h1 : p.1 ≠ pyLower s := by simpa using this
    rw [← hwf mods p hmem]
    exact h1
  · intro mods c1 c2 hc1 hc2 hname
    have hsplit2 : load_services (mods ++ [.classes [c1], .classes [c2]]) =
        dict_set (dict_set (load_services mods) (pyLower c1.name) c1)
          (pyLower c2.name) c2 := by
      show (mods ++ [ModuleLoad.classes [c1], .classes [c2]]).foldl load_module [] = _
      rw [List.foldl_append]
      simp only [List.foldl_cons, List.foldl_nil]
      rw [load_module_valid_eq _ c1 hc1, load_module_valid_eq _ c2 hc2]
      rfl
    have hsplit1 : load_services (mods ++ [.classes [c1]]) =
        dict_set (load_services mods) (pyLower c1.name) c1 := by
      show (mods ++ [ModuleLoad.classes [c1]]).foldl load_module [] = _
      rw [List.foldl_append]
      simp only [List.foldl_cons, List.foldl_nil]
      rw [load_module_valid_eq _ c1 hc1]
      rfl
    constructor
    · rw [hsplit2, get_service, find?_dict_set]
      rfl
    · rw [hsplit2, hsplit1]
      apply dict_set_length_mem
      rw [← hname]
      by_cases hk : pyLower c1.name ∈ keysOf (load_services mods)
      · rw [dict_set_keysOf_mem _ _ _ hk]
        exact hk
      · rw [dict_set_keysOf_not_mem _ _ _ hk]
        simp
/-- Witness for `registry_lookup`: a later class with the same lowercase name
wins, lookup is case-insensitive and the registry does not grow. -/
theorem registry_lookup_witness :
    get_service (load_services ([] ++ [ModuleLoad.classes [⟨true, "foo", 1⟩],
        .classes [⟨true, "FOO", 2⟩]])) "FOO" = some ⟨true, "FOO", 2⟩ ∧
    (load_services ([] ++ [ModuleLoad.classes [⟨true, "foo", 1⟩],
        .classes [⟨true, "FOO", 2⟩]])).length = 1 := by
  have h := registry_lookup.2.2.2 [] ⟨true, "foo", 1⟩ ⟨true, "FOO", 2⟩
    rfl rfl (by decide)
  refine ⟨h.1, h.2.trans (by decide)⟩

/-- C2 counterexample: an exception with `str` "boom" inside Apache's
`install()` is converted to `(False, "Installation error: boom")`, not to
`(False, str(exception))` — the handlers prefix the message. -/
theorem apache_install_exception_counterexample :
    apache_install_verb ⟨.fedora, .dnf⟩
        ⟨fun _ => false, fun _ => false, fun _ => .raised "boom",
          none, "", "", true⟩ =
      .ok (false, "Installation error: boom") ∧
    ("Installation error: boom" : String) ≠ "boom" := by
  refine ⟨rfl, by decide⟩

/-- C2 amended: for every platform state and environment, the Apache and
MySQL install/uninstall verbs return normally (no exception crosses the verb
boundary), and an uncaught non-timeout exception inside the verb body is
converted to `(False, m)` where `m` is `str(exception)` behind a
verb-specific prefix. -/
theorem verbs_never_raise :
    (∀ pm env, exceptOk (apache_install_verb pm env) = true) ∧
    (∀ pm env, exceptOk (apache_uninstall_verb pm env) = true) ∧
    (∀ pm env, exceptOk (mysql_install_verb pm env) = true) ∧
    (∀ pm env, exceptOk (mysql_uninstall_verb pm env) = true) ∧
    (∀ pm env m,
      apache_install_loop pm env
          (get_packages_for_current_os apache_package_names pm) = .error (.exn m) →
      apache_install_verb pm env = .ok (false, "Installation error: " ++ m)) ∧
    (∀ pm env m,
      apache_uninstall_loop pm env
          (get_packages_for_current_os apache_package_names pm) = .error (.exn m) →
      apache_uninstall_verb pm env = .ok (false, "Uninstall error: " ++ m)) ∧
    (∀ pm env m,
      (get_packages_for_current_os mysql_package_names pm).isEmpty = false →
      mysql_install_body pm env = .error (.exn m) →
      mysql_install_verb pm env = .ok (false, "Post-install setup failed: " ++ m)) ∧
    (∀ pm env m,
      (get_packages_for_current_os mysql_package_names pm).isEmpty = false →
      mysql_uninstall_body pm env = .error (.exn m) →
      mysql_uninstall_verb pm env = .ok (false, "Uninstall error: " ++ m)) := by
  refine ⟨?_, ?_, ?_, ?_, ?_, ?_, ?_, ?_⟩
  · intro pm env
    simp only [apache_install_verb]
    split
    · rfl
    · cases apache_install_loop pm env
        (get_packages_for_current_os apache_package_names pm) with
      | ok r => rfl
      | error e => cases e <;> rfl
  · intro pm env
    simp only [apache_uninstall_verb]
    split
    · rfl
    · cases apache_uninstall_loop pm env
        (get_packages_for_current_os apache_package_names pm) with
      | ok r => rfl
      | error e => cases e <;> rfl
  · intro pm env
    simp only [mysql_install_verb]
    split
    · rfl
    · cases mysql_install_body pm env with
      | ok r => rfl
      | error e => cases e <;> rfl
  · intro pm env
    simp only [mysql_uninstall_verb]
    split
    · rfl
    · cases mysql_uninstall_body pm env with
      | ok r => rfl
      | error e => cases e <;> rfl
  · intro pm env m h
    by_cases hemp : (get_packages_for_current_os apache_package_names pm).isEmpty = true
    · exfalso
      rw [List.isEmpty_iff.mp hemp] at h
      simp [apache_install_loop] at h
    · simp only [Bool.not_eq_true] at hemp
      simp only [apache_install_verb, hemp, Bool.false_eq_true, if_false]
      rw [h]
  · intro pm env m h
    by_cases hemp : (get_packages_for_current_os apache_package_names pm).isEmpty = true
    · exfalso
      rw [List.isEmpty_iff.mp hemp] at h
      simp [apache_uninstall_loop] at h
    · simp only [Bool.not_eq_true] at hemp
      simp only [apache_uninstall_verb, hemp, Bool.false_eq_true, if_false]
      rw [h]
  · intro pm env m hemp h
    simp only [mysql_install_verb, hemp, Bool.false_eq_true, if_false]
    rw [h]
  · intro pm env m hemp h
    simp only [mysql_uninstall_verb, hemp, Bool.false_eq_true, if_false]
    rw [h]

/-- Witness for `verbs_never_raise` on concrete environments whose
subprocesses raise an exception "boom". -/
theorem verbs_never_raise_witness :
    exceptOk (apache_install_verb samplePlatform sampleRaisingEnv) = true ∧
    apache_install_verb samplePlatform sampleRaisingEnv =
      .ok (false, "Installation error: boom") ∧
    apache_uninstall_verb samplePlatform sampleRaisingEnvInstalled =
      .ok (false, "Uninstall error: boom") ∧
    mysql_install_verb samplePlatform sampleRaisingEnv =
      .ok (false, "Post-install setup failed: boom") ∧
    mysql_uninstall_verb samplePlatform sampleRaisingEnvInstalled =
      .ok (false, "Uninstall error: boom") := by
  refine ⟨verbs_never_raise.1 samplePlatform sampleRaisingEnv, ?_, ?_, ?_, ?_⟩
  · exact verbs_never_raise.2.2.2.2.1 samplePlatform sampleRaisingEnv "boom" rfl
  · exact verbs_never_raise.2.2.2.2.2.1 samplePlatform sampleRaisingEnvInstalled
      "boom" rfl
  · exact verbs_never_raise.2.2.2.2.2.2.1 samplePlatform sampleRaisingEnv
      "boom" rfl rfl
  · exact verbs_never_raise.2.2.2.2.2.2.2 samplePlatform sampleRaisingEnvInstalled
      "boom" rfl rfl

/-- C9: when `is_installed()` is false, every systemctl-backed verb of the
Apache and MySQL services returns
`(False, "<display_name> is not installed")` without spawning any
subprocess. -/
theorem precondition_not_installed (pm : Platform) (env : SysEnv) :
    (apache_is_installed pm env = false →
      apache_start pm env = ⟨false, (false, "Apache HTTP Server is not installed")⟩ ∧
      apache_stop pm env = ⟨false, (false, "Apache HTTP Server is not installed")⟩ ∧
      apache_restart pm env =
        ⟨false, (false, "Apache HTTP Server is not installed")⟩ ∧
      apache_enable pm env = ⟨false, (false, "Apache HTTP Server is not installed")⟩ ∧
      apache_disable pm env =
        ⟨false, (false, "Apache HTTP Server is not installed")⟩) ∧
    (mysql_is_installed pm env = false →
      mysql_start pm env =
        ⟨false, (false, "MySQL Database Server is not installed")⟩ ∧
      mysql_stop pm env =
        ⟨false, (false, "MySQL Database Server is not installed")⟩ ∧
      mysql_restart pm env =
        ⟨false, (false, "MySQL Database Server is not installed")⟩ ∧
      mysql_enable pm env =
        ⟨false, (false, "MySQL Database Server is not installed")⟩ ∧
      mysql_disable pm env =
        ⟨false, (false, "MySQL Database Server is not installed")⟩) := by
  constructor
  · intro h
    refine ⟨?_, ?_, ?_, ?_, ?_⟩ <;>
      simp [apache_start, apache_stop, apache_restart, apache_enable,
        apache_disable, apache_systemctl_verb, h]
  · intro h
    refine ⟨?_, ?_, ?_, ?_, ?_⟩ <;>
      simp [mysql_start, mysql_stop, mysql_restart, mysql_enable,
        mysql_disable, mysql_systemctl_verb, h]

/-- Witness for `precondition_not_installed` on a concrete environment with
no packages installed. -/
theorem precondition_not_installed_witness :
    apache_start samplePlatform sampleRaisingEnv =
      ⟨false, (false, "Apache HTTP Server is not installed")⟩ ∧
    mysql_start samplePlatform sampleRaisingEnv =
      ⟨false, (false, "MySQL Database Server is not installed")⟩ := by
  have h := precondition_not_installed samplePlatform sampleRaisingEnv
  exact ⟨(h.1 rfl).1, (h.2 rfl).1⟩
